import Mathlib

/-!
Verification of the breadcrumb trace-ingestion core.

This file gives a shallow embedding of the ingestion and reconciliation
engine of the breadcrumb repository and proves properties of it:

* the Ingest Gateway (`services/server/src/ingest/index.ts`): payload
  validation (zod `TraceSchema` / `SpanSchema`), unit conversion
  (`toMicroDollars`), row construction for the two ClickHouse tables;
* the storage model (`infra/clickhouse/migrations/0001_initial.sql`, the
  revision with `Nullable(DateTime64)` trace `end_time`): multi-version
  trace rows merged field-wise by `argMax(_, version)`, append-only span
  rows, and the `trace_rollups` accumulator fed by the
  `spans_to_rollups` materialized view and merged by
  `AggregatingMergeTree` (sum / max combiners);
* the read reconciler (`services/server/src/trpc/routes/traces.ts` and
  `services/server/src/mcp/index.ts`): `COALESCE(t.end_time,
  r.max_end_time)` effective end times and duration guards;
* the batching client (`packages/core/src/client.ts`, `IngestClient`) and
  the SDK handles (`packages/sdk-typescript/src/trace.ts`, `span.ts`).

Modelling conventions, used throughout:

* `DateTime64(3, UTC)` values and the ISO-8601 strings that are parsed
  into them are modelled as milliseconds since the Unix epoch (a natural number); the wire sentinel `"1970-01-01T00:00:00.000Z"` is
  `epochMs = 0`.
* JavaScript numbers are modelled as exact rationals; `Math.round x` is
  `⌊x + 1/2⌋` (nearest integer, ties toward positive infinity), which
  agrees with the IEEE-754 evaluation at every input considered here.
* Opaque JSON payloads (`input` / `output` / `metadata` values) are
  modelled as their serialised string form, since the core never
  inspects them.
* ClickHouse `UInt32` / `UInt64` columns are modelled as naturals;
  the quantities involved stay far below the wrap-around range.
* JavaScript promise results are `Except String Unit`: `.error` is a
  rejected promise, `.ok` a resolved one.
-/

namespace Breadcrumb

/-- The storage epoch: the value stored when the ingest gateway writes its
sentinel `"1970-01-01T00:00:00.000Z"` for a missing trace `end_time`. -/
def epochMs : Nat := 0

/-! ## Ingest gateway helpers (`services/server/src/ingest/index.ts`) -/

/-- Embedding of `toMicroDollars` (ingest/index.ts lines 148-151):
`if (!usd) return 0; return Math.round(usd * 1_000_000);`.
The JavaScript guard `!usd` fires on `undefined` and on `0` (modelled as
`none` and `some 0`); `Math.round` rounds to the nearest integer with
ties toward positive infinity, i.e. `⌊x + 1/2⌋`. -/
def toMicroDollars (usd : Option ℚ) : ℤ :=
  match usd with
  | none => 0
  | some q => if q = 0 then 0 else ⌊q * 1000000 + 1 / 2⌋

/-- Embedding of `toJson` (ingest/index.ts lines 155-159) on the opaque
payload model: absent/null becomes the empty string, a present payload is
stored as its serialised string form. -/
def toJsonStr (value : Option String) : String :=
  value.getD ""

/-- Embedding of `toChDate` (ingest/index.ts lines 162-164): rewrite an
ISO-8601 string to ClickHouse `DateTime64` text form by replacing the
`"T"` separator with a space and dropping the `"Z"` suffix.  (An ISO
timestamp contains exactly one of each, so JavaScript's first-occurrence
`String.replace` and Lean's all-occurrence `String.replace` agree.) -/
def toChDate (iso : String) : String :=
  (iso.replace "T" " ").replace "Z" ""

/-! ## Wire payload validation (`services/server/src/ingest/schemas.ts`)

The zod schemas validate untrusted JSON.  A wire payload is modelled as a
record of `Option` fields (`none` is an absent field); `z.unknown()`
payloads are opaque strings.  Validation produces either the parsed value
or a zod-style flattened report: a list of `(field, message)` pairs. -/

/-- One entry of a flattened zod error report: field name and message. -/
abbrev FieldIssue := String × String

/-- A character allowed by the id regexes `[0-9a-f]`. -/
def isHexChar (c : Char) : Bool :=
  c.isDigit || ('a' ≤ c && c ≤ 'f')

/-- The regex `^[0-9a-f]{len}$` from `traceIdSchema` (`len = 32`) and
`spanIdSchema` (`len = 16`). -/
def isLowerHex (len : Nat) (s : String) : Bool :=
  s.length == len && s.data.all isHexChar

/-- The format accepted by `z.string().datetime()` (no offsets):
`^\d{4}-\d{2}-\d{2}T\d{2}:\d{2}:\d{2}(\.\d+)?Z$`. -/
def isZodDatetime (s : String) : Bool :=
  match s.data with
  | y1 :: y2 :: y3 :: y4 :: '-' :: mo1 :: mo2 :: '-' :: d1 :: d2 :: 'T' ::
      h1 :: h2 :: ':' :: mi1 :: mi2 :: ':' :: s1 :: s2 :: rest =>
    ([y1, y2, y3, y4, mo1, mo2, d1, d2, h1, h2, mi1, mi2, s1, s2].all Char.isDigit) &&
    (match rest with
     | ['Z'] => true
     | '.' :: frac =>
       frac.length ≥ 2 && frac.dropLast.all Char.isDigit && frac.getLast? == some 'Z'
     | _ => false)
  | _ => false

/-- Check a required field: absent yields zod's `Required` issue, present
values must satisfy the field's format check. -/
def checkRequired (field : String) (ok : String → Bool) (msg : String)
    (v : Option String) : List FieldIssue :=
  match v with
  | none => [(field, "Required")]
  | some s => if ok s then [] else [(field, msg)]

/-- Check an optional field: absent is fine, present values must satisfy
the field's format check. -/
def checkOptional (field : String) (ok : String → Bool) (msg : String)
    (v : Option String) : List FieldIssue :=
  match v with
  | none => []
  | some s => if ok s then [] else [(field, msg)]

/-- Check an optional `z.number().int().nonnegative()` field. -/
def checkOptionalInt (field : String) (v : Option ℤ) : List FieldIssue :=
  match v with
  | none => []
  | some n => if 0 ≤ n then [] else [(field, "Number must be greater than or equal to 0")]

/-- Check an optional `z.number().nonnegative()` field (float USD costs). -/
def checkOptionalRat (field : String) (v : Option ℚ) : List FieldIssue :=
  match v with
  | none => []
  | some q => if 0 ≤ q then [] else [(field, "Number must be greater than or equal to 0")]

/-- An untrusted trace wire payload as received by `POST /v1/traces`:
every field may be absent.  Mirrors the fields of `TraceSchema`. -/
structure RawTrace where
  id : Option String
  name : Option String
  start_time : Option String
  end_time : Option String
  status : Option String
  status_message : Option String
  input : Option String
  output : Option String
  user_id : Option String
  session_id : Option String
  environment : Option String
  tags : Option (List (String × String))
  deriving DecidableEq

/-- An untrusted span wire payload as received by `POST /v1/spans`.
Mirrors the fields of `SpanSchema`; token counts are integers and costs
are float USD (exact rationals in the model). -/
structure RawSpan where
  id : Option String
  trace_id : Option String
  parent_span_id : Option String
  name : Option String
  type : Option String
  start_time : Option String
  end_time : Option String
  status : Option String
  status_message : Option String
  input : Option String
  output : Option String
  provider : Option String
  model : Option String
  input_tokens : Option ℤ
  output_tokens : Option ℤ
  input_cost_usd : Option ℚ
  output_cost_usd : Option ℚ
  metadata : Option (List (String × String))
  deriving DecidableEq

/-- The enum of `SpanSchema.type`. -/
def spanTypes : List String := ["llm", "tool", "retrieval", "chain", "custom"]

/-- All issues collected by `TraceSchema.safeParse`, in field order.
`status` defaults to `"ok"` and is only checked when present; `input`,
`output` (`z.unknown()`), the remaining optional strings and `tags`
(`z.record(z.string())`) accept any modelled value. -/
def traceIssues (t : RawTrace) : List FieldIssue :=
  checkRequired "id" (isLowerHex 32) "trace id must be 32-char hex" t.id ++
  checkRequired "name" (fun s => 1 ≤ s.length) "String must contain at least 1 character(s)" t.name ++
  checkRequired "start_time" isZodDatetime "Invalid datetime" t.start_time ++
  checkOptional "end_time" isZodDatetime "Invalid datetime" t.end_time ++
  checkOptional "status" (fun s => s == "ok" || s == "error") "Invalid enum value" t.status

/-- All issues collected by `SpanSchema.safeParse`, in field order. -/
def spanIssues (s : RawSpan) : List FieldIssue :=
  checkRequired "id" (isLowerHex 16) "span id must be 16-char hex" s.id ++
  checkRequired "trace_id" (isLowerHex 32) "trace id must be 32-char hex" s.trace_id ++
  checkOptional "parent_span_id" (isLowerHex 16) "span id must be 16-char hex" s.parent_span_id ++
  checkRequired "name" (fun x => 1 ≤ x.length) "String must contain at least 1 character(s)" s.name ++
  checkRequired "type" (fun x => spanTypes.contains x) "Invalid enum value" s.type ++
  checkRequired "start_time" isZodDatetime "Invalid datetime" s.start_time ++
  checkRequired "end_time" isZodDatetime "Invalid datetime" s.end_time ++
  checkOptional "status" (fun x => x == "ok" || x == "error") "Invalid enum value" s.status ++
  checkOptionalInt "input_tokens" s.input_tokens ++
  checkOptionalInt "output_tokens" s.output_tokens ++
  checkOptionalRat "input_cost_usd" s.input_cost_usd ++
  checkOptionalRat "output_cost_usd" s.output_cost_usd

/-- A validated trace payload (the `parsed.data` of `TraceSchema`):
required fields are plain values, `status` has its `"ok"` default. -/
structure Trace where
  id : String
  name : String
  start_time : String
  end_time : Option String
  status : String
  status_message : Option String
  input : Option String
  output : Option String
  user_id : Option String
  session_id : Option String
  environment : Option String
  tags : Option (List (String × String))
  deriving DecidableEq

/-- A validated span payload (the `parsed.data` of `SpanSchema`). -/
structure Span where
  id : String
  trace_id : String
  parent_span_id : Option String
  name : String
  type : String
  start_time : String
  end_time : String
  status : String
  status_message : Option String
  input : Option String
  output : Option String
  provider : Option String
  model : Option String
  input_tokens : Option ℤ
  output_tokens : Option ℤ
  input_cost_usd : Option ℚ
  output_cost_usd : Option ℚ
  metadata : Option (List (String × String))
  deriving DecidableEq

/-- `TraceSchema.safeParse`: either the parsed payload or the flattened
per-field report of every issue. -/
def parseTrace (t : RawTrace) : Except (List FieldIssue) Trace :=
  match traceIssues t with
  | [] => .ok
      { id := t.id.getD "", name := t.name.getD "", start_time := t.start_time.getD "",
        end_time := t.end_time, status := t.status.getD "ok",
        status_message := t.status_message, input := t.input, output := t.output,
        user_id := t.user_id, session_id := t.session_id,
        environment := t.environment, tags := t.tags }
  | errs => .error errs

/-- `SpanSchema.safeParse`: either the parsed payload or the flattened
per-field report of every issue. -/
def parseSpan (s : RawSpan) : Except (List FieldIssue) Span :=
  match spanIssues s with
  | [] => .ok
      { id := s.id.getD "", trace_id := s.trace_id.getD "",
        parent_span_id := s.parent_span_id, name := s.name.getD "",
        type := s.type.getD "", start_time := s.start_time.getD "",
        end_time := s.end_time.getD "", status := s.status.getD "ok",
        status_message := s.status_message, input := s.input, output := s.output,
        provider := s.provider, model := s.model,
        input_tokens := s.input_tokens, output_tokens := s.output_tokens,
        input_cost_usd := s.input_cost_usd, output_cost_usd := s.output_cost_usd,
        metadata := s.metadata }
  | errs => .error errs

/-! ## Ingest routes at wire level (`ingestRoutes.post` handlers)

These embeddings follow the handler bodies literally, with times still in
their string form; the gateway's `version` is the `Date.now()` reading at
the moment the request is processed, passed in as `now`. -/

/-- One row of the `values` array inserted into `breadcrumb.traces` by
`POST /v1/traces` (ingest/index.ts lines 64-83), text form. -/
structure TraceInsertText where
  id : String
  project_id : String
  version : Nat
  name : String
  start_time : String
  end_time : String
  status : String
  status_message : String
  input : String
  output : String
  user_id : String
  session_id : String
  environment : String
  tags : List (String × String)
  deriving DecidableEq

/-- One row of the `values` array inserted into `breadcrumb.spans` by
`POST /v1/spans` (ingest/index.ts lines 109-129), text form. -/
structure SpanInsertText where
  id : String
  trace_id : String
  parent_span_id : String
  project_id : String
  name : String
  type : String
  start_time : String
  end_time : String
  status : String
  status_message : String
  input : String
  output : String
  provider : String
  model : String
  input_tokens : ℤ
  output_tokens : ℤ
  input_cost_usd : ℤ
  output_cost_usd : ℤ
  metadata : List (String × String)
  deriving DecidableEq

/-- The row built from a validated trace payload by the `/v1/traces`
handler.  Note the sentinel: a missing `end_time` is replaced by the epoch
timestamp string, not by NULL (`t.end_time ?? "1970-01-01T00:00:00.000Z"`). -/
def buildTraceRow (projectId : String) (now : Nat) (t : Trace) : TraceInsertText :=
  { id := t.id, project_id := projectId, version := now, name := t.name,
    start_time := toChDate t.start_time,
    end_time := toChDate (t.end_time.getD "1970-01-01T00:00:00.000Z"),
    status := t.status, status_message := t.status_message.getD "",
    input := toJsonStr t.input, output := toJsonStr t.output,
    user_id := t.user_id.getD "", session_id := t.session_id.getD "",
    environment := t.environment.getD "", tags := t.tags.getD [] }

/-- The row built from a validated span payload by the `/v1/spans`
handler, with costs converted to micro-dollars. -/
def buildSpanRow (projectId : String) (s : Span) : SpanInsertText :=
  { id := s.id, trace_id := s.trace_id,
    parent_span_id := s.parent_span_id.getD "", project_id := projectId,
    name := s.name, type := s.type,
    start_time := toChDate s.start_time, end_time := toChDate s.end_time,
    status := s.status, status_message := s.status_message.getD "",
    input := toJsonStr s.input, output := toJsonStr s.output,
    provider := s.provider.getD "", model := s.model.getD "",
    input_tokens := s.input_tokens.getD 0, output_tokens := s.output_tokens.getD 0,
    input_cost_usd := toMicroDollars s.input_cost_usd,
    output_cost_usd := toMicroDollars s.output_cost_usd,
    metadata := s.metadata.getD [] }

/-- The `/v1/traces` handler: validate, then insert exactly one row; on
validation failure respond 400 with the flattened report and write
nothing. -/
def postTraceRoute (projectId : String) (now : Nat) (raw : RawTrace) :
    Except (List FieldIssue) TraceInsertText :=
  match parseTrace raw with
  | .error e => .error e
  | .ok t => .ok (buildTraceRow projectId now t)

/-- The `/v1/spans` handler loop: validate each element of the batch in
order, returning the first failing element's flattened report before
anything is inserted; only when every element parses is the whole batch
inserted. -/
def postSpansRoute (projectId : String) (raw : List RawSpan) :
    Except (List FieldIssue) (List SpanInsertText) :=
  match raw with
  | [] => .ok []
  | r :: rest =>
    match parseSpan r with
    | .error e => .error e
    | .ok s =>
      match postSpansRoute projectId rest with
      | .error e => .error e
      | .ok rows => .ok (buildSpanRow projectId s :: rows)

/-- The rows actually written to `breadcrumb.traces` by one `/v1/traces`
request: one on success, none on a 400 response. -/
def tracesWritten (projectId : String) (now : Nat) (raw : RawTrace) :
    List TraceInsertText :=
  match postTraceRoute projectId now raw with
  | .ok row => [row]
  | .error _ => []

/-- The rows actually written to `breadcrumb.spans` by one `/v1/spans`
request: the whole batch on success, none on a 400 response. -/
def spansWritten (projectId : String) (raw : List RawSpan) :
    List SpanInsertText :=
  match postSpansRoute projectId raw with
  | .ok rows => rows
  | .error _ => []

/-! ## Storage model (`infra/clickhouse/migrations/0001_initial.sql`,
revision with `Nullable(DateTime64)` trace `end_time`)

Timestamps are now naturals (milliseconds).  A validated trace payload with its
timestamps resolved to milliseconds is a `TraceMsg`; the `/v1/traces`
handler turns it into a `TraceRow`, one physical row of
`breadcrumb.traces`. -/

/-- A validated trace payload with timestamps as milliseconds: the same
data as `Trace`, after the ISO strings are interpreted. -/
structure TraceMsg where
  id : String
  name : String
  start_time : Nat
  end_time : Option Nat
  status : String
  status_message : Option String
  input : Option String
  output : Option String
  user_id : Option String
  session_id : Option String
  environment : Option String
  deriving DecidableEq

/-- One physical row of `breadcrumb.traces` (migration lines 317-347).
`end_time` is the `Nullable(DateTime64(3, 'UTC'))` column; `version` is
the gateway-assigned Unix-millisecond value that
`ReplacingMergeTree(version)` and the `argMax` read pattern key on. -/
structure TraceRow where
  id : String
  project_id : String
  version : Nat
  name : String
  start_time : Nat
  end_time : Option Nat
  status : String
  status_message : String
  input : String
  output : String
  user_id : String
  session_id : String
  environment : String
  deriving DecidableEq

/-- The `/v1/traces` handler at storage level (ingest/index.ts lines
64-83): `version` is `Date.now()` at processing time, and a missing
`end_time` becomes the epoch **sentinel** `some epochMs` — the handler
always inserts a non-NULL value into the `Nullable` column
(`toChDate(t.end_time ?? "1970-01-01T00:00:00.000Z")`). -/
def ingestTraceRow (projectId : String) (now : Nat) (t : TraceMsg) : TraceRow :=
  { id := t.id, project_id := projectId, version := now, name := t.name,
    start_time := t.start_time,
    end_time := some (t.end_time.getD epochMs),
    status := t.status, status_message := t.status_message.getD "",
    input := toJsonStr t.input, output := toJsonStr t.output,
    user_id := t.user_id.getD "", session_id := t.session_id.getD "",
    environment := t.environment.getD "" }

/-- One physical row of `breadcrumb.spans` (migration lines 356-395),
with timestamps as milliseconds and costs already in micro-dollars. -/
structure SpanRow where
  id : String
  trace_id : String
  parent_span_id : String
  project_id : String
  name : String
  type : String
  start_time : Nat
  end_time : Nat
  status : String
  status_message : String
  input : String
  output : String
  provider : String
  model : String
  input_tokens : Nat
  output_tokens : Nat
  input_cost_usd : Nat
  output_cost_usd : Nat
  deriving DecidableEq

/-- One physical row of `breadcrumb.trace_rollups` (migration lines
427-440): `SimpleAggregateFunction(sum, _)` columns plus
`SimpleAggregateFunction(max, _)` for `max_end_time`.  Any partially
merged accumulator row has this same shape. -/
structure RollupRow where
  project_id : String
  trace_id : String
  input_tokens : Nat
  output_tokens : Nat
  input_cost_usd : Nat
  output_cost_usd : Nat
  span_count : Nat
  max_end_time : Nat
  deriving DecidableEq

/-- The `spans_to_rollups` materialized view (migration lines 450-461):
every span insert emits one partial-update row with `span_count = 1` and
`max_end_time = end_time`. -/
def spanToRollup (s : SpanRow) : RollupRow :=
  { project_id := s.project_id, trace_id := s.trace_id,
    input_tokens := s.input_tokens, output_tokens := s.output_tokens,
    input_cost_usd := s.input_cost_usd, output_cost_usd := s.output_cost_usd,
    span_count := 1, max_end_time := s.end_time }

/-- The `AggregatingMergeTree` background combiner for two rollup rows
sharing the `(project_id, trace_id)` key: sum every counter column, max
the `max_end_time` column.  (The key columns are taken from the first
row; the merge only ever combines rows with equal keys.) -/
def mergeRollup (a b : RollupRow) : RollupRow :=
  { project_id := a.project_id, trace_id := a.trace_id,
    input_tokens := a.input_tokens + b.input_tokens,
    output_tokens := a.output_tokens + b.output_tokens,
    input_cost_usd := a.input_cost_usd + b.input_cost_usd,
    output_cost_usd := a.output_cost_usd + b.output_cost_usd,
    span_count := a.span_count + b.span_count,
    max_end_time := max a.max_end_time b.max_end_time }

/-- The read-side re-fold over the stored rollup rows of one trace
(`ROLLUPS_SUBQUERY` in trpc/routes/traces.ts lines 6-18 and
`ROLLUPS_JOIN` in mcp/index.ts: `sum(...)`, `max(max_end_time)`,
`GROUP BY trace_id`): fold the same combiner over whatever rows are
present; `none` when the group is empty (the LEFT JOIN misses). -/
def readRollup (rows : List RollupRow) : Option RollupRow :=
  match rows with
  | [] => none
  | r :: rs => some (rs.foldl mergeRollup r)

/-- One background-compaction step on the stored rollup rows of a trace:
ClickHouse may reorder parts and may replace two rows by their
`mergeRollup` combination, at any time. -/
inductive RollupStep : List RollupRow → List RollupRow → Prop
  | perm {l1 l2 : List RollupRow} (h : l1.Perm l2) : RollupStep l1 l2
  | merge (a b : RollupRow) (l : List RollupRow) :
      RollupStep (a :: b :: l) (mergeRollup a b :: l)

/-- Any number of background-compaction steps: the stored state of the
rollup table for a trace is anything reachable from the per-span
partial-update rows. -/
abbrev RollupReach : List RollupRow → List RollupRow → Prop :=
  Relation.ReflTransGen RollupStep

/-- The exact re-fold of a list of rollup rows for key `(pid, tid)`:
componentwise sums, and the maximum end time (`0`, the order-bot of
the order-bot of naturals, for the empty list). -/
def foldRollups (pid tid : String) (l : List RollupRow) : RollupRow :=
  { project_id := pid, trace_id := tid,
    input_tokens := (l.map RollupRow.input_tokens).sum,
    output_tokens := (l.map RollupRow.output_tokens).sum,
    input_cost_usd := (l.map RollupRow.input_cost_usd).sum,
    output_cost_usd := (l.map RollupRow.output_cost_usd).sum,
    span_count := (l.map RollupRow.span_count).sum,
    max_end_time := (l.map RollupRow.max_end_time).foldr max 0 }

/-! ## Read reconciliation (`trpc/routes/traces.ts`, `mcp/index.ts`) -/

/-- ClickHouse `argMax(arg, val)` over the `(arg, val)` pairs of a group:
the `arg` of a row with the maximal `val`.  ClickHouse leaves the choice
among equal-`val` rows unspecified; the model keeps the first such row. -/
def argMaxPairs {α : Type} : List (α × Nat) → Option (α × Nat)
  | [] => none
  | p :: ps => some (ps.foldl (fun b q => if q.2 > b.2 then q else b) p)

/-- `argMax(f(row), version)` over the physical rows of one trace, for a
non-`Nullable` column `f`. -/
def argMaxField {α : Type} (f : TraceRow → α) (rows : List TraceRow) : Option α :=
  (argMaxPairs (rows.map (fun r => (f r, r.version)))).map Prod.fst

/-- `argMax(end_time, version)` over the physical rows of one trace.
`end_time` is `Nullable` and ClickHouse aggregate functions skip NULL
arguments, so rows with no end time do not participate; the result is
NULL only when every row's `end_time` is NULL. -/
def argMaxEndTime (rows : List TraceRow) : Option Nat :=
  (argMaxPairs (rows.filterMap (fun r => r.end_time.map (fun e => (e, r.version))))).map
    Prod.fst

/-- The reconciled (grouped) trace produced by the inner `argMax` queries
of `tracesRouter.list` / `tracesRouter.stats` / the mcp queries. -/
structure ReconTrace where
  id : String
  name : String
  status : String
  status_message : String
  start_time : Nat
  end_time : Option Nat
  user_id : String
  environment : String
  output : String
  deriving DecidableEq

/-- The field-wise last-writer-wins merge: `GROUP BY id` with one
`argMax(_, version)` per column (`breadcrumb.traces` is documented to be
read exactly this way; `output` follows the same pattern, as in the
migration's documented read).  `none` when the trace has no physical rows
at all.  The `getD` defaults are unreachable for a nonempty group. -/
def reconcileTrace (rows : List TraceRow) : Option ReconTrace :=
  if rows.isEmpty then none
  else some
    { id := (argMaxField TraceRow.id rows).getD "",
      name := (argMaxField TraceRow.name rows).getD "",
      status := (argMaxField TraceRow.status rows).getD "",
      status_message := (argMaxField TraceRow.status_message rows).getD "",
      start_time := (argMaxField TraceRow.start_time rows).getD 0,
      end_time := argMaxEndTime rows,
      user_id := (argMaxField TraceRow.user_id rows).getD "",
      environment := (argMaxField TraceRow.environment rows).getD "",
      output := (argMaxField TraceRow.output rows).getD "" }

/-- `COALESCE(t.end_time, r.max_end_time)`: the effective end time of a
reconciled trace, given the (possibly missing) re-folded rollup of its
spans.  Used by `tracesRouter.list` and as `EFFECTIVE_END` in
mcp/index.ts. -/
def effectiveEndTime (t : ReconTrace) (r : Option RollupRow) : Option Nat :=
  match t.end_time with
  | some e => some e
  | none => r.map RollupRow.max_end_time

/-- The per-trace term of `avg_duration_ms` in `tracesRouter.stats`
(trpc/routes/traces.ts lines 89-92) and `get_project_stats`
(mcp/index.ts lines 64-68): `avgIf` includes
`toInt64(effective_end) - toInt64(start_time)` only for traces where the
effective end time is not NULL and strictly later than `start_time`;
every other trace contributes nothing (`none`). -/
def statsDuration (start : Nat) (eff : Option Nat) : Option ℤ :=
  match eff with
  | none => none
  | some e => if start < e then some ((e : ℤ) - (start : ℤ)) else none

/-- `calcDuration` (mcp/index.ts lines 8-12): the other read-side
duration computation.  `null` end time gives `null`; otherwise the
difference is returned only when strictly positive. -/
def calcDuration (startTime : Nat) (endTime : Option Nat) : Option ℤ :=
  match endTime with
  | none => none
  | some e =>
    if (0 : ℤ) < (e : ℤ) - (startTime : ℤ) then some ((e : ℤ) - (startTime : ℤ)) else none

/-! ## Batching client (`packages/core/src/client.ts`, `IngestClient`)

`TracePayload` / `SpanPayload` mirror `packages/core/src/types.ts`.
JavaScript runs the body of `flush()` synchronously up to its first
`await`, so the two `splice(0)` calls are one atomic step; the model makes
that step explicit as `flushDetach`.  The network is a parameter
`net : Request → Except String Unit` giving each request's settled
outcome (`.error` is a rejected fetch / non-ok response, which `#post`
turns into a thrown `Error`). -/

/-- The wire payload of `POST /v1/traces` as buffered by the SDK
(`types.ts`, `TracePayload`). -/
structure TracePayload where
  id : String
  name : String
  start_time : String
  end_time : Option String
  status : Option String
  status_message : Option String
  input : Option String
  output : Option String
  user_id : Option String
  session_id : Option String
  environment : Option String
  tags : Option (List (String × String))
  deriving DecidableEq

/-- The wire payload of `POST /v1/spans` as buffered by the SDK
(`types.ts`, `SpanPayload`). -/
structure SpanPayload where
  id : String
  trace_id : String
  parent_span_id : Option String
  name : String
  type : String
  start_time : String
  end_time : String
  status : Option String
  status_message : Option String
  input : Option String
  output : Option String
  provider : Option String
  model : Option String
  input_tokens : Option Nat
  output_tokens : Option Nat
  input_cost_usd : Option ℚ
  output_cost_usd : Option ℚ
  metadata : Option (List (String × String))
  deriving DecidableEq

/-- The mutable state of an `IngestClient`: the two buffers
(`#traceBuffer`, `#spanBuffer`) and whether the recurring timer
(`#timer`) is set. -/
structure ClientState where
  traceBuffer : List TracePayload
  spanBuffer : List SpanPayload
  timerActive : Bool
  deriving DecidableEq

/-- One HTTP request issued by `#post`: each buffered trace is an
independent `POST /v1/traces`, all buffered spans go in a single batched
`POST /v1/spans`. -/
inductive Request where
  | postTrace (t : TracePayload)
  | postSpans (spans : List SpanPayload)
  deriving DecidableEq

/-- The synchronous prefix of `flush()` (client.ts lines 149-160): both
buffers are spliced to empty and the request list is built, before any
asynchronous work starts.  Returns the state after the splice together
with the requests to transmit. -/
def flushDetach (s : ClientState) : ClientState × List Request :=
  ({ s with traceBuffer := [], spanBuffer := [] },
    s.traceBuffer.map Request.postTrace ++
      (if s.spanBuffer.isEmpty then [] else [Request.postSpans s.spanBuffer]))

/-- `await Promise.all(requests)`: resolves when every request resolved,
rejects with the first rejection otherwise.  (On an empty list `flush`
skips the await; the result is the same resolved promise.) -/
def runRequests (net : Request → Except String Unit) :
    List Request → Except String Unit
  | [] => .ok ()
  | r :: rest =>
    match net r with
    | .error e => .error e
    | .ok _ => runRequests net rest

/-- `flush()`: splice synchronously, transmit, and surface the combined
promise outcome to the caller.  Yields the post-splice state, the
requests sent, and the promise result. -/
def flush (net : Request → Except String Unit) (s : ClientState) :
    ClientState × List Request × Except String Unit :=
  let detached := flushDetach s
  (detached.1, detached.2, runRequests net detached.2)

/-- `shutdown()`: clear the recurring timer, then run a final `flush()`
whose outcome is returned to the caller. -/
def shutdown (net : Request → Except String Unit) (s : ClientState) :
    ClientState × List Request × Except String Unit :=
  flush net { s with timerActive := false }

/-- `#autoFlush()` — and equally the timer callback of `#scheduleFlush`
(client.ts lines 185-194): `this.flush().catch(this.#onError)`.  The
flush failure, if any, is handed to the caller-supplied `onError`
callback (returned here as the list of `onError` invocations); nothing
is ever re-thrown, which the result type makes structural: there is no
`Except` in it. -/
def autoFlush (net : Request → Except String Unit) (s : ClientState) :
    ClientState × List Request × List String :=
  let r := flush net s
  (r.1, r.2.1, match r.2.2 with | .ok _ => [] | .error e => [e])

/-- `sendTrace(payload)` (client.ts lines 115-120): append to the trace
buffer; once the buffer reaches `maxBatchSize`, trigger the
fire-and-forget `#autoFlush`. -/
def sendTrace (net : Request → Except String Unit) (maxBatchSize : Nat)
    (s : ClientState) (p : TracePayload) :
    ClientState × List Request × List String :=
  let s2 : ClientState := { s with traceBuffer := s.traceBuffer ++ [p] }
  if maxBatchSize ≤ s2.traceBuffer.length then autoFlush net s2 else (s2, [], [])

/-- `sendSpan(payload)` (client.ts lines 123-128): append to the span
buffer; once the buffer reaches `maxBatchSize`, trigger `#autoFlush`. -/
def sendSpan (net : Request → Except String Unit) (maxBatchSize : Nat)
    (s : ClientState) (p : SpanPayload) :
    ClientState × List Request × List String :=
  let s2 : ClientState := { s with spanBuffer := s.spanBuffer ++ [p] }
  if maxBatchSize ≤ s2.spanBuffer.length then autoFlush net s2 else (s2, [], [])

/-- The trace payloads transmitted by a list of requests. -/
def sentTraces (reqs : List Request) : List TracePayload :=
  reqs.foldr
    (fun r acc =>
      match r with
      | .postTrace t => t :: acc
      | .postSpans _ => acc) []

/-- The span payloads transmitted by a list of requests (each batched
request contributes its whole array). -/
def sentSpans (reqs : List Request) : List SpanPayload :=
  reqs.foldr
    (fun r acc =>
      match r with
      | .postTrace _ => acc
      | .postSpans ss => ss ++ acc) []

/-! ## SDK handles (`packages/sdk-typescript/src/trace.ts`, `span.ts`)

Each handle owns an `#ended` flag; `end()` checks and sets it before
building the close payload and buffering it via the client.  The model
returns the list of payloads handed to `sendTrace` / `sendSpan` by a
call (empty for a no-op), and `runTraceEnds` / `runSpanEnds` replay a
whole sequence of `end()` calls. -/

/-- `TraceEndOptions` (`sdk-typescript/src/types.ts`). -/
structure TraceEndOptions where
  output : Option String
  status : Option String
  statusMessage : Option String
  deriving DecidableEq

/-- The state of a `TraceHandle`: the fields captured at construction
plus the `#ended` flag. -/
structure TraceHandleState where
  id : String
  name : String
  startTime : String
  ended : Bool
  deriving DecidableEq

/-- The close payload built by `TraceHandle.end` (trace.ts lines 63-71);
`now` is the `new Date().toISOString()` reading of the call. -/
def traceEndPayload (h : TraceHandleState) (now : String)
    (opts : TraceEndOptions) : TracePayload :=
  { id := h.id, name := h.name, start_time := h.startTime,
    end_time := some now, status := some (opts.status.getD "ok"),
    status_message := opts.statusMessage, input := none,
    output := opts.output, user_id := none, session_id := none,
    environment := none, tags := none }

/-- `TraceHandle.end(opts)` (trace.ts lines 59-73): a no-op when
`#ended` is already set, otherwise set it and buffer exactly one close
payload. -/
def traceEnd (h : TraceHandleState) (now : String) (opts : TraceEndOptions) :
    TraceHandleState × List TracePayload :=
  if h.ended then (h, [])
  else ({ h with ended := true }, [traceEndPayload h now opts])

/-- Replay a sequence of `TraceHandle.end` calls, collecting every
payload handed to `client.sendTrace`. -/
def runTraceEnds (h : TraceHandleState) :
    List (String × TraceEndOptions) → TraceHandleState × List TracePayload
  | [] => (h, [])
  | c :: cs =>
    let step := traceEnd h c.1 c.2
    let rest := runTraceEnds step.1 cs
    (rest.1, step.2 ++ rest.2)

/-- `SpanEndOptions` (`sdk-typescript/src/types.ts`). -/
structure SpanEndOptions where
  output : Option String
  status : Option String
  statusMessage : Option String
  model : Option String
  provider : Option String
  inputTokens : Option Nat
  outputTokens : Option Nat
  inputCostUsd : Option ℚ
  outputCostUsd : Option ℚ
  deriving DecidableEq

/-- The state of a `SpanHandle`: the fields captured at construction
plus the `#ended` flag. -/
structure SpanHandleState where
  id : String
  traceId : String
  parentSpanId : Option String
  name : String
  type : String
  startTime : String
  input : Option String
  provider : Option String
  model : Option String
  metadata : Option (List (String × String))
  ended : Bool
  deriving DecidableEq

/-- The payload built by `SpanHandle.end` (span.ts lines 331-350);
`now` is the `new Date().toISOString()` reading of the call. -/
def spanEndPayload (h : SpanHandleState) (now : String)
    (opts : SpanEndOptions) : SpanPayload :=
  { id := h.id, trace_id := h.traceId, parent_span_id := h.parentSpanId,
    name := h.name, type := h.type, start_time := h.startTime,
    end_time := now, status := some (opts.status.getD "ok"),
    status_message := opts.statusMessage, input := h.input,
    output := opts.output,
    provider := match opts.provider with | some p => some p | none => h.provider,
    model := match opts.model with | some m => some m | none => h.model,
    input_tokens := opts.inputTokens, output_tokens := opts.outputTokens,
    input_cost_usd := opts.inputCostUsd, output_cost_usd := opts.outputCostUsd,
    metadata := h.metadata }

/-- `SpanHandle.end(opts)` (span.ts lines 327-353): a no-op when
`#ended` is already set, otherwise set it and buffer exactly one span
payload. -/
def spanEnd (h : SpanHandleState) (now : String) (opts : SpanEndOptions) :
    SpanHandleState × List SpanPayload :=
  if h.ended then (h, [])
  else ({ h with ended := true }, [spanEndPayload h now opts])

/-- Replay a sequence of `SpanHandle.end` calls, collecting every
payload handed to `client.sendSpan`. -/
def runSpanEnds (h : SpanHandleState) :
    List (String × SpanEndOptions) → SpanHandleState × List SpanPayload
  | [] => (h, [])
  | c :: cs =>
    let step := spanEnd h c.1 c.2
    let rest := runSpanEnds step.1 cs
    (rest.1, step.2 ++ rest.2)

/-! ## Concrete scenario data

Closed inputs used by the evaluation theorems and witnesses below. -/

/-- A 32-char hex trace id. -/
def traceIdA : String := "aaaaaaaaaaaaaaaaaaaaaaaaaaaaaaaa"

/-- A 16-char hex span id. -/
def spanIdB : String := "bbbbbbbbbbbbbbbb"

/-- An open write: `trace.start()` payload — no `end_time`. -/
def openMsgX : TraceMsg :=
  { id := traceIdA, name := "checkout", start_time := 1000, end_time := none,
    status := "ok", status_message := none, input := some "question",
    output := none, user_id := some "user-1", session_id := none,
    environment := some "production" }

/-- The matching close write: `trace.end()` payload — `end_time` set,
final status and output. -/
def closeMsgX : TraceMsg :=
  { id := traceIdA, name := "checkout", start_time := 1000,
    end_time := some 2000, status := "error",
    status_message := some "boom", input := none, output := some "answer",
    user_id := none, session_id := none, environment := none }

/-- A completed span of that trace, ending at 5000 ms. -/
def spanRowX : SpanRow :=
  { id := spanIdB, trace_id := traceIdA, parent_span_id := "",
    project_id := "p1", name := "llm-call", type := "llm",
    start_time := 2000, end_time := 5000, status := "ok",
    status_message := "", input := "", output := "", provider := "openai",
    model := "gpt-4o", input_tokens := 22, output_tokens := 10,
    input_cost_usd := 66, output_cost_usd := 150 }

/-- A second completed span of the same trace, ending at 4000 ms. -/
def spanRowY : SpanRow :=
  { id := "cccccccccccccccc", trace_id := traceIdA, parent_span_id := spanIdB,
    project_id := "p1", name := "tool-call", type := "tool",
    start_time := 2500, end_time := 4000, status := "ok",
    status_message := "", input := "", output := "", provider := "",
    model := "", input_tokens := 5, output_tokens := 7,
    input_cost_usd := 10, output_cost_usd := 20 }

/-- A valid raw span wire payload. -/
def rawSpanOk : RawSpan :=
  { id := some spanIdB, trace_id := some traceIdA, parent_span_id := none,
    name := some "llm-call", type := some "llm",
    start_time := some "2024-01-01T00:00:02.000Z",
    end_time := some "2024-01-01T00:00:05.000Z", status := some "ok",
    status_message := none, input := none, output := none,
    provider := some "openai", model := some "gpt-4o",
    input_tokens := some 22, output_tokens := some 10,
    input_cost_usd := some (66 / 1000000), output_cost_usd := some (150 / 1000000),
    metadata := none }

/-- An invalid raw span: id is not 16-char hex and the type is not in the
enum. -/
def rawSpanBadId : RawSpan :=
  { id := some "XYZ", trace_id := some traceIdA, parent_span_id := none,
    name := some "llm-call", type := some "database",
    start_time := some "2024-01-01T00:00:02.000Z",
    end_time := some "2024-01-01T00:00:05.000Z", status := none,
    status_message := none, input := none, output := none,
    provider := none, model := none, input_tokens := none,
    output_tokens := none, input_cost_usd := none, output_cost_usd := none,
    metadata := none }

/-- An invalid raw trace: the required `name` is missing and the status
is outside the enum. -/
def rawTraceBad : RawTrace :=
  { id := some traceIdA, name := none,
    start_time := some "2024-01-01T00:00:01.000Z", end_time := none,
    status := some "cancelled", status_message := none, input := none,
    output := none, user_id := none, session_id := none,
    environment := none, tags := none }

/-- A buffered trace payload for the client scenarios. -/
def tracePayload0 : TracePayload :=
  { id := traceIdA, name := "checkout",
    start_time := "2024-01-01T00:00:01.000Z", end_time := none,
    status := none, status_message := none, input := none, output := none,
    user_id := none, session_id := none, environment := none, tags := none }

/-- A buffered span payload for the client scenarios. -/
def spanPayload0 : SpanPayload :=
  { id := spanIdB, trace_id := traceIdA, parent_span_id := none,
    name := "llm-call", type := "llm",
    start_time := "2024-01-01T00:00:02.000Z",
    end_time := "2024-01-01T00:00:05.000Z", status := none,
    status_message := none, input := none, output := none,
    provider := none, model := none, input_tokens := none,
    output_tokens := none, input_cost_usd := none, output_cost_usd := none,
    metadata := none }

/-- A client with one trace and one span buffered and the timer set. -/
def clientState0 : ClientState :=
  { traceBuffer := [tracePayload0], spanBuffer := [spanPayload0],
    timerActive := true }

/-- A network where every request fails. -/
def netDown : Request → Except String Unit :=
  fun _ => .error "network error"

/-- A fresh trace handle. -/
def traceHandle0 : TraceHandleState :=
  { id := traceIdA, name := "checkout",
    startTime := "2024-01-01T00:00:01.000Z", ended := false }

/-- A fresh span handle. -/
def spanHandle0 : SpanHandleState :=
  { id := spanIdB, traceId := traceIdA, parentSpanId := none,
    name := "llm-call", type := "llm",
    startTime := "2024-01-01T00:00:02.000Z", input := none,
    provider := some "openai", model := none, metadata := none,
    ended := false }

/-- Default (empty) trace end options. -/
def traceEndOpts0 : TraceEndOptions :=
  { output := some "answer", status := some "error", statusMessage := some "boom" }

/-- Default (empty) span end options. -/
def spanEndOpts0 : SpanEndOptions :=
  { output := none, status := none, statusMessage := none, model := none,
    provider := none, inputTokens := some 22, outputTokens := some 10,
    inputCostUsd := none, outputCostUsd := none }

/-! ## Helper lemmas -/

/-- Folding `max` over a list of naturals is invariant under permutation. -/
theorem foldr_max_perm {l1 l2 : List Nat} (h : l1.Perm l2) :
    l1.foldr max 0 = l2.foldr max 0 := by
  induction h with
  | nil => rfl
  | cons x p ih => simp only [List.foldr_cons, ih]
  | swap x y l => simp only [List.foldr_cons]; exact max_left_comm _ _ _
  | trans p1 p2 ih1 ih2 => exact ih1.trans ih2

/-- Summing a constant `1` over a list counts its elements. -/
theorem sum_map_one {α : Type} (l : List α) :
    (l.map (fun _ => (1 : Nat))).sum = l.length := by
  induction l with
  | nil => rfl
  | cons a l ih => simp [ih, Nat.add_comm]

/-! ## Claim C6: cost rounding -/

/-- Claim C6: the gateway converts float USD to micro-units by
`Math.round(usd * 1_000_000)` — rounding to the nearest micro-unit with
half rounded up, not truncation.  Concretely `0.000066` yields `66`,
`0.0000001` yields `0`, and `0.0000005` (exactly half a micro-unit)
yields `1`; truncation would have produced `0` at the half boundary.
(The IEEE-754 double evaluation of these products gives `66.0`,
`0.09999999999999999` and `0.5`, so the exact-rational model agrees with
the JavaScript computation at each of these inputs.) -/
theorem c6_cost_rounding :
    toMicroDollars (some (66 / 1000000 : ℚ)) = 66
  ∧ toMicroDollars (some (1 / 10000000 : ℚ)) = 0
  ∧ toMicroDollars (some (5 / 10000000 : ℚ)) = 1
  ∧ ⌊(5 / 10000000 : ℚ) * 1000000⌋ = 0 := by
  refine ⟨?_, ?_, ?_, ?_⟩ <;> norm_num [toMicroDollars, Int.floor_eq_iff]

/-! ## Claim C2: duration safety -/

/-- Unfolding lemma for `statsDuration` on a present end time. -/
theorem statsDuration_some (start e : Nat) :
    statsDuration start (some e) =
      if start < e then some ((e : ℤ) - (start : ℤ)) else none := rfl

/-- The mcp `calcDuration` computes the same option as the `avgIf` term:
`0 < e - start` over the integers is `start < e` over the naturals. -/
theorem calcDuration_eq_statsDuration (start : Nat) (eff : Option Nat) :
    calcDuration start eff = statsDuration start eff := by
  cases eff with
  | none => rfl
  | some e =>
    show (if (0 : ℤ) < (e : ℤ) - (start : ℤ)
            then some ((e : ℤ) - (start : ℤ)) else none) =
         (if start < e then some ((e : ℤ) - (start : ℤ)) else none)
    by_cases h : start < e
    · rw [if_pos h, if_pos (by omega)]
    · rw [if_neg h, if_neg (by omega)]

/-- Claim C2: both read-side duration computations — the `avgIf` term of
`tracesRouter.stats` / `get_project_stats` (modelled by `statsDuration`)
and `calcDuration` in the mcp layer (the only two places any read query
derives a duration) — yield `none` exactly when the effective end time
is absent, equal to the start time, or earlier than it; and whenever a
duration is returned as a real value it is strictly positive, never zero
or negative. -/
theorem c2_duration_safety (start : Nat) (eff : Option Nat) :
    (statsDuration start eff = none ↔ eff = none ∨ ∃ e, eff = some e ∧ e ≤ start)
  ∧ (∀ d : ℤ, statsDuration start eff = some d → 0 < d)
  ∧ (calcDuration start eff = none ↔ eff = none ∨ ∃ e, eff = some e ∧ e ≤ start)
  ∧ (∀ d : ℤ, calcDuration start eff = some d → 0 < d) := by
  have hiff : statsDuration start eff = none ↔
      eff = none ∨ ∃ e, eff = some e ∧ e ≤ start := by
    cases eff with
    | none => simp [statsDuration]
    | some e =>
      by_cases h : start < e
      · rw [statsDuration_some, if_pos h]
        refine ⟨fun hx => Option.noConfusion hx, fun hx => ?_⟩
        rcases hx with hx | ⟨x, hx, hle⟩
        · exact Option.noConfusion hx
        · have hex : e = x := Option.some.inj hx
          exact absurd hle (by omega)
      · have he : e ≤ start := by omega
        rw [statsDuration_some, if_neg h]
        exact ⟨fun _ => Or.inr ⟨e, rfl, he⟩, fun _ => rfl⟩
  have hpos : ∀ d : ℤ, statsDuration start eff = some d → 0 < d := by
    intro d hd
    cases eff with
    | none => exact Option.noConfusion hd
    | some e =>
      rw [statsDuration_some] at hd
      by_cases h : start < e
      · rw [if_pos h] at hd
        have hde : (e : ℤ) - (start : ℤ) = d := Option.some.inj hd
        omega
      · rw [if_neg h] at hd
        exact Option.noConfusion hd
  exact ⟨hiff, hpos,
    by rw [calcDuration_eq_statsDuration]; exact hiff,
    by rw [calcDuration_eq_statsDuration]; exact hpos⟩

/-- Witness for C2 at concrete inputs: an effective end equal to the
start (5, 5) gives an unknown duration, and the duration 4 actually
returned for `(5, some 9)` is strictly positive. -/
theorem c2_duration_safety_witness :
    statsDuration 5 (some 5) = none ∧ calcDuration 5 (some 5) = none
  ∧ (0 : ℤ) < 4 := by
  refine ⟨(c2_duration_safety 5 (some 5)).1.mpr (Or.inr ⟨5, rfl, by decide⟩),
          (c2_duration_safety 5 (some 5)).2.2.1.mpr (Or.inr ⟨5, rfl, by decide⟩),
          (c2_duration_safety 5 (some 9)).2.1 4 (by decide)⟩

/-! ## Claim C4: concurrent flush transmits each item exactly once -/

/-- Unfolding of `sentTraces` on a cons. -/
theorem sentTraces_cons (r : Request) (rest : List Request) :
    sentTraces (r :: rest) =
      (match r with
       | .postTrace t => [t]
       | .postSpans _ => []) ++ sentTraces rest := by
  cases r <;> rfl

/-- Unfolding of `sentSpans` on a cons. -/
theorem sentSpans_cons (r : Request) (rest : List Request) :
    sentSpans (r :: rest) =
      (match r with
       | .postTrace _ => []
       | .postSpans ss => ss) ++ sentSpans rest := by
  cases r <;> rfl

/-- `sentTraces` distributes over request-list concatenation. -/
theorem sentTraces_append (a b : List Request) :
    sentTraces (a ++ b) = sentTraces a ++ sentTraces b := by
  induction a with
  | nil => rfl
  | cons r rest ih => cases r <;> simp [sentTraces_cons, ih]

/-- `sentSpans` distributes over request-list concatenation. -/
theorem sentSpans_append (a b : List Request) :
    sentSpans (a ++ b) = sentSpans a ++ sentSpans b := by
  induction a with
  | nil => rfl
  | cons r rest ih => cases r <;> simp [sentSpans_cons, ih]

/-- The per-trace requests of a flush transmit exactly the buffered
traces. -/
theorem sentTraces_map (l : List TracePayload) :
    sentTraces (l.map Request.postTrace) = l := by
  induction l with
  | nil => rfl
  | cons t l ih => simp [sentTraces_cons, ih]

/-- The per-trace requests of a flush transmit no spans. -/
theorem sentSpans_map (l : List TracePayload) :
    sentSpans (l.map Request.postTrace) = [] := by
  induction l with
  | nil => rfl
  | cons t l ih => simp [sentSpans_cons, ih]

/-- Claim C4: `flush()` splices both buffers synchronously before any
asynchronous work (`flushDetach` is that atomic synchronous prefix), so
when two flushes run concurrently the first to execute its synchronous
prefix takes the whole contents and the second observes empty buffers
and issues no requests: across both calls every buffered trace and span
is transmitted exactly once. -/
theorem c4_concurrent_flush_exactly_once (s : ClientState) :
    sentTraces (flushDetach s).2 = s.traceBuffer
  ∧ sentSpans (flushDetach s).2 = s.spanBuffer
  ∧ (flushDetach (flushDetach s).1).2 = []
  ∧ sentTraces ((flushDetach s).2 ++ (flushDetach (flushDetach s).1).2) = s.traceBuffer
  ∧ sentSpans ((flushDetach s).2 ++ (flushDetach (flushDetach s).1).2) = s.spanBuffer := by
  have hIfT : sentTraces
      (if s.spanBuffer.isEmpty then [] else [Request.postSpans s.spanBuffer]) = [] := by
    split <;> rfl
  have hIfS : sentSpans
      (if s.spanBuffer.isEmpty then [] else [Request.postSpans s.spanBuffer]) =
      s.spanBuffer := by
    by_cases hsp : s.spanBuffer.isEmpty
    · have hnil : s.spanBuffer = [] := by simpa using hsp
      simp [hsp, hnil]
      rfl
    · simp [hsp, sentSpans_cons]
      rfl
  have hsecond : (flushDetach (flushDetach s).1).2 = [] := rfl
  have hT : sentTraces (flushDetach s).2 = s.traceBuffer := by
    show sentTraces (s.traceBuffer.map Request.postTrace ++ _) = s.traceBuffer
    rw [sentTraces_append, sentTraces_map, hIfT, List.append_nil]
  have hS : sentSpans (flushDetach s).2 = s.spanBuffer := by
    show sentSpans (s.traceBuffer.map Request.postTrace ++ _) = s.spanBuffer
    rw [sentSpans_append, sentSpans_map, List.nil_append, hIfS]
  refine ⟨hT, hS, hsecond, ?_, ?_⟩
  · rw [hsecond, List.append_nil, hT]
  · rw [hsecond, List.append_nil, hS]

/-- Witness for C4 on a concrete client holding one trace and one span. -/
theorem c4_concurrent_flush_witness :
    sentTraces (flushDetach clientState0).2 = [tracePayload0]
  ∧ sentSpans (flushDetach clientState0).2 = [spanPayload0]
  ∧ (flushDetach (flushDetach clientState0).1).2 = [] := by
  have h := c4_concurrent_flush_exactly_once clientState0
  exact ⟨h.1, h.2.1, h.2.2.1⟩

/-! ## Claim C10: a failed explicit flush drops its batch -/

/-- Claim C10: when an explicit `flush()` fails, nothing restores the
spliced items: the post-splice state keeps both buffers empty, so an
immediately following `flush()` (with no interleaved enqueues) builds no
requests and resolves without transmitting anything — the failed batch
is dropped, not re-queued. -/
theorem c10_failed_flush_drops_batch (net : Request → Except String Unit)
    (s : ClientState) (e : String) (h : (flush net s).2.2 = .error e) :
    (flush net s).1.traceBuffer = [] ∧ (flush net s).1.spanBuffer = []
  ∧ (flush net (flush net s).1).2.1 = []
  ∧ (flush net (flush net s).1).2.2 = .ok () :=
  ⟨rfl, rfl, rfl, rfl⟩

/-- Witness for C10: a concrete failing flush over a network that rejects
every request, followed by a second flush that sends nothing. -/
theorem c10_failed_flush_witness :
    (flush netDown clientState0).2.2 = .error "network error"
  ∧ (flush netDown (flush netDown clientState0).1).2.1 = [] := by
  refine ⟨rfl, ?_⟩
  exact (c10_failed_flush_drops_batch netDown clientState0 "network error" rfl).2.2.1

/-! ## Claim C9: background failures go to onError, explicit ones reject -/

/-- Claim C9: when the transmission of a flush fails, the
fire-and-forget path used by the timer and the size threshold
(`#autoFlush`, i.e. `flush().catch(onError)`) hands the error to the
caller-supplied `onError` callback and cannot throw (its result type
carries no `Except`), while an explicit `flush()` or `shutdown()`
returns the rejection to the caller. -/
theorem c9_background_error_to_callback (net : Request → Except String Unit)
    (s : ClientState) (e : String)
    (h : runRequests net (flushDetach s).2 = .error e) :
    (autoFlush net s).2.2 = [e]
  ∧ (flush net s).2.2 = .error e
  ∧ (shutdown net s).2.2 = .error e := by
  have hflush : (flush net s).2.2 = .error e := h
  have hsd : (shutdown net s).2.2 = .error e := h
  refine ⟨?_, hflush, hsd⟩
  show (match (flush net s).2.2 with
        | .ok _ => ([] : List String)
        | .error e2 => [e2]) = [e]
  rw [hflush]

/-- Witness for C9 on the concrete failing network: `autoFlush` reports
the error through `onError` while `flush` and `shutdown` reject. -/
theorem c9_background_error_witness :
    (autoFlush netDown clientState0).2.2 = ["network error"]
  ∧ (flush netDown clientState0).2.2 = .error "network error"
  ∧ (shutdown netDown clientState0).2.2 = .error "network error" :=
  c9_background_error_to_callback netDown clientState0 "network error" rfl

/-! ## Claim C7: end() is idempotent at the transmission level -/

/-- A trace handle whose `#ended` flag is set emits nothing, no matter
how many further `end()` calls are replayed. -/
theorem runTraceEnds_ended (h : TraceHandleState) (hE : h.ended = true) :
    ∀ cs, runTraceEnds h cs = (h, []) := by
  intro cs
  induction cs with
  | nil => rfl
  | cons c cs ih => simp [runTraceEnds, traceEnd, hE, ih]

/-- A span handle whose `#ended` flag is set emits nothing, no matter
how many further `end()` calls are replayed. -/
theorem runSpanEnds_ended (h : SpanHandleState) (hE : h.ended = true) :
    ∀ cs, runSpanEnds h cs = (h, []) := by
  intro cs
  induction cs with
  | nil => rfl
  | cons c cs ih => simp [runSpanEnds, spanEnd, hE, ih]

/-- Claim C7: replaying any sequence of one or more `end()` calls on a
fresh `TraceHandle` or `SpanHandle` buffers exactly one close event —
the first call's payload; every later call is a no-op. -/
theorem c7_close_idempotent (ht : TraceHandleState) (hsp : SpanHandleState)
    (hT : ht.ended = false) (hS : hsp.ended = false)
    (c0 : String × TraceEndOptions) (cs : List (String × TraceEndOptions))
    (d0 : String × SpanEndOptions) (ds : List (String × SpanEndOptions)) :
    (runTraceEnds ht (c0 :: cs)).2 = [traceEndPayload ht c0.1 c0.2]
  ∧ (runSpanEnds hsp (d0 :: ds)).2 = [spanEndPayload hsp d0.1 d0.2] := by
  have hTend := runTraceEnds_ended { ht with ended := true } rfl cs
  have hSend := runSpanEnds_ended { hsp with ended := true } rfl ds
  constructor
  · simp [runTraceEnds, traceEnd, hT, hTend]
  · simp [runSpanEnds, spanEnd, hS, hSend]

/-- Witness for C7: two `end()` calls on the concrete fresh handles emit
only the first call's payload. -/
theorem c7_close_idempotent_witness :
    (runTraceEnds traceHandle0
      [("2024-01-01T00:00:09.000Z", traceEndOpts0),
       ("2024-01-01T00:00:10.000Z", traceEndOpts0)]).2 =
      [traceEndPayload traceHandle0 "2024-01-01T00:00:09.000Z" traceEndOpts0]
  ∧ (runSpanEnds spanHandle0
      [("2024-01-01T00:00:05.000Z", spanEndOpts0),
       ("2024-01-01T00:00:06.000Z", spanEndOpts0)]).2 =
      [spanEndPayload spanHandle0 "2024-01-01T00:00:05.000Z" spanEndOpts0] :=
  c7_close_idempotent traceHandle0 spanHandle0 rfl rfl _ _ _ _

/-! ## Claim C3: gateway version ordering

The gateway stamps every trace write with `version: Date.now()` — wall
clock milliseconds at processing time.  `Date.now()` has one-millisecond
resolution, so an open write and a close write processed within the same
millisecond (the "sent both nearly simultaneously" case) receive *equal*
versions, not strictly increasing ones; the claim's strict inequality
fails there, and the `argMax` tie is then resolved arbitrarily by
ClickHouse.  What does hold: with a nondecreasing gateway clock the
close version is `≥` the open version, and whenever the close write is
processed in a strictly later millisecond the reconciled field-wise view
reports the close write's `end_time`, `status` and `output`. -/

/-- Counterexample to C3 as stated: an open write processed at
`Date.now() = 1000` and its close write processed later in the *same*
millisecond (also reading `1000`) get equal versions — the close write's
version is not strictly greater. -/
theorem c3_same_millisecond_counterexample :
    ¬ ((ingestTraceRow "p1" 1000 closeMsgX).version >
       (ingestTraceRow "p1" 1000 openMsgX).version) := by
  decide

/-- Claim C3 (amended): with a nondecreasing gateway clock the close
write's version is greater than or equal to the open write's; and
whenever the close write is processed at a strictly later millisecond
the field-wise `argMax(_, version)` view reports the close write's
`end_time`, `status` and `output`. -/
theorem c3_version_order_amended (pid : String) (o c : TraceMsg) (n1 n2 : Nat)
    (hle : n1 ≤ n2) :
    (ingestTraceRow pid n1 o).version ≤ (ingestTraceRow pid n2 c).version
  ∧ (n1 < n2 →
      argMaxEndTime [ingestTraceRow pid n1 o, ingestTraceRow pid n2 c] =
        some (c.end_time.getD epochMs)
    ∧ argMaxField TraceRow.status [ingestTraceRow pid n1 o, ingestTraceRow pid n2 c] =
        some c.status
    ∧ argMaxField TraceRow.output [ingestTraceRow pid n1 o, ingestTraceRow pid n2 c] =
        some (toJsonStr c.output)) := by
  refine ⟨hle, fun hlt => ⟨?_, ?_, ?_⟩⟩
  · simp [argMaxEndTime, argMaxPairs, ingestTraceRow, hlt]
  · simp [argMaxField, argMaxPairs, ingestTraceRow, hlt]
  · simp [argMaxField, argMaxPairs, ingestTraceRow, hlt]

/-- Witness for the amended C3: open processed at 1000 ms, close at
1001 ms — the close version wins and the reconciled view shows the close
write's end time (2000), status (`error`) and output. -/
theorem c3_version_order_witness :
    (ingestTraceRow "p1" 1000 openMsgX).version ≤
      (ingestTraceRow "p1" 1001 closeMsgX).version
  ∧ argMaxEndTime
      [ingestTraceRow "p1" 1000 openMsgX, ingestTraceRow "p1" 1001 closeMsgX] =
      some 2000
  ∧ argMaxField TraceRow.status
      [ingestTraceRow "p1" 1000 openMsgX, ingestTraceRow "p1" 1001 closeMsgX] =
      some "error"
  ∧ argMaxField TraceRow.output
      [ingestTraceRow "p1" 1000 openMsgX, ingestTraceRow "p1" 1001 closeMsgX] =
      some "answer" := by
  have h := c3_version_order_amended "p1" openMsgX closeMsgX 1000 1001 (by decide)
  have h2 := h.2 (by decide)
  exact ⟨h.1, h2.1, h2.2.1, h2.2.2⟩

/-! ## Claim C1: effective end time

The schema comments document the intended design: the open write inserts
NULL into the `Nullable` `end_time` column, so that
`COALESCE(t.end_time, r.max_end_time)` falls back to the spans' maximal
end time whenever the close event never arrived.  The ingest handler,
however, inserts the epoch sentinel string
(`t.end_time ?? "1970-01-01T00:00:00.000Z"`) — a non-NULL value — so for
a never-closed trace the COALESCE returns epoch 0 instead of the rollup
maximum.  The evaluation below exhibits this divergence. -/

/-- Claim C1 evaluated at the failing input: a trace opened at 1000 ms
whose close event never arrives, with one completed span ending at
5000 ms.  The open write carried no end time, yet the read reconciler
reports effective end time `epochMs` (the sentinel written by the ingest
handler) rather than the rollup maximum 5000 documented by the schema
and stated by the claim. -/
theorem c1_sentinel_defeats_rollup_fallback :
    openMsgX.end_time = none
  ∧ (reconcileTrace [ingestTraceRow "p1" 1000 openMsgX]).map
      (fun t => effectiveEndTime t (readRollup [spanToRollup spanRowX])) =
      some (some epochMs)
  ∧ (readRollup [spanToRollup spanRowX]).map RollupRow.max_end_time = some 5000 := by
  refine ⟨rfl, rfl, rfl⟩

/-! ## Claim C8: validation rejects whole requests with per-field reports -/

/-- A failed `TraceSchema` parse carries exactly the collected issue
list, which is nonempty. -/
theorem parseTrace_error_eq (t : RawTrace) (errs : List FieldIssue)
    (h : parseTrace t = .error errs) :
    errs = traceIssues t ∧ traceIssues t ≠ [] := by
  revert h
  unfold parseTrace
  cases hI : traceIssues t with
  | nil => intro h; exact Except.noConfusion h
  | cons a l =>
    intro h
    injection h with h2
    exact ⟨h2.symm, List.cons_ne_nil a l⟩

/-- A failed `SpanSchema` parse carries exactly the collected issue
list, which is nonempty. -/
theorem parseSpan_error_eq (s : RawSpan) (errs : List FieldIssue)
    (h : parseSpan s = .error errs) :
    errs = spanIssues s ∧ spanIssues s ≠ [] := by
  revert h
  unfold parseSpan
  cases hI : spanIssues s with
  | nil => intro h; exact Except.noConfusion h
  | cons a l =>
    intro h
    injection h with h2
    exact ⟨h2.symm, List.cons_ne_nil a l⟩

/-- If any element of a span batch fails validation, the whole
`/v1/spans` request is rejected with a nonempty per-field report. -/
theorem postSpansRoute_error_of_invalid (pid : String) (raw : List RawSpan)
    (hbad : ∃ r ∈ raw, ∃ errs, parseSpan r = .error errs) :
    ∃ errs, postSpansRoute pid raw = .error errs ∧ errs ≠ [] := by
  induction raw with
  | nil =>
    obtain ⟨r, hr, _⟩ := hbad
    exact absurd hr (List.not_mem_nil r)
  | cons a rest ih =>
    obtain ⟨r, hr, errs, herr⟩ := hbad
    cases hP : parseSpan a with
    | error e =>
      refine ⟨e, by simp [postSpansRoute, hP], ?_⟩
      obtain ⟨he, hne⟩ := parseSpan_error_eq a e hP
      rw [he]; exact hne
    | ok sp =>
      have hmem : r ∈ rest := by
        rcases List.mem_cons.mp hr with hh | hh
        · subst hh; rw [hP] at herr; exact Except.noConfusion herr
        · exact hh
      obtain ⟨e2, he2, hne⟩ := ih ⟨r, hmem, errs, herr⟩
      exact ⟨e2, by simp [postSpansRoute, hP, he2], hne⟩

/-- Claim C8: a trace or span payload that fails validation (malformed
hex id, missing required field, unknown enum value, ...) is rejected at
the gateway with a nonempty structured per-field report and causes no
storage write; in particular a span batch containing any invalid element
stores none of its elements. -/
theorem c8_validation_no_partial_store (pid : String) :
    (∀ (rt : RawTrace) (errs : List FieldIssue), parseTrace rt = .error errs →
       errs ≠ [] ∧ ∀ now, tracesWritten pid now rt = [])
  ∧ (∀ raw : List RawSpan,
       (∃ r ∈ raw, ∃ errs, parseSpan r = .error errs) →
       spansWritten pid raw = [] ∧
         ∃ errs, postSpansRoute pid raw = .error errs ∧ errs ≠ []) := by
  constructor
  · intro rt errs h
    obtain ⟨he, hne⟩ := parseTrace_error_eq rt errs h
    refine ⟨by rw [he]; exact hne, ?_⟩
    intro now
    simp [tracesWritten, postTraceRoute, h]
  · intro raw hbad
    obtain ⟨errs, he, hne⟩ := postSpansRoute_error_of_invalid pid raw hbad
    exact ⟨by simp [spansWritten, he], errs, he, hne⟩

/-- Witness for C8: a trace payload missing its required `name` (and
with a bad enum status) is rejected and unwritten; a two-element span
batch whose second element has a malformed id and unknown type stores
neither element. -/
theorem c8_validation_witness :
    (traceIssues rawTraceBad ≠ [] ∧
      ∀ now, tracesWritten "p1" now rawTraceBad = [])
  ∧ (spansWritten "p1" [rawSpanOk, rawSpanBadId] = []
     ∧ ∃ errs, postSpansRoute "p1" [rawSpanOk, rawSpanBadId] = .error errs ∧
         errs ≠ []) :=
  ⟨(c8_validation_no_partial_store "p1").1 rawTraceBad (traceIssues rawTraceBad) rfl,
   (c8_validation_no_partial_store "p1").2 [rawSpanOk, rawSpanBadId]
     ⟨rawSpanBadId, List.mem_cons_of_mem _ (List.mem_cons_self _ _),
      spanIssues rawSpanBadId, rfl⟩⟩

/-! ## Claim C5: rollup re-fold correctness -/

/-- One compaction step preserves the exact re-fold `foldRollups`. -/
theorem rollupStep_fold (pid tid : String) {l1 l2 : List RollupRow}
    (h : RollupStep l1 l2) :
    foldRollups pid tid l1 = foldRollups pid tid l2 := by
  cases h with
  | perm hp =>
    simp only [foldRollups, RollupRow.mk.injEq, true_and]
    exact ⟨(hp.map _).sum_eq, (hp.map _).sum_eq, (hp.map _).sum_eq,
           (hp.map _).sum_eq, (hp.map _).sum_eq, foldr_max_perm (hp.map _)⟩
  | merge a b l =>
    simp [foldRollups, mergeRollup, RollupRow.mk.injEq, add_assoc, max_assoc]

/-- One compaction step only ever touches rows of the same
`(project_id, trace_id)` key. -/
theorem rollupStep_keyed {pid tid : String} {l1 l2 : List RollupRow}
    (h : RollupStep l1 l2)
    (hk : ∀ r ∈ l1, r.project_id = pid ∧ r.trace_id = tid) :
    ∀ r ∈ l2, r.project_id = pid ∧ r.trace_id = tid := by
  cases h with
  | perm hp =>
    intro r hr
    exact hk r (hp.mem_iff.mpr hr)
  | merge a b l =>
    intro r hr
    rcases List.mem_cons.mp hr with rfl | hr2
    · have ha := hk a (List.mem_cons_self a _)
      exact ⟨ha.1, ha.2⟩
    · exact hk r (List.mem_cons_of_mem a (List.mem_cons_of_mem b hr2))

/-- One compaction step never empties a nonempty group. -/
theorem rollupStep_ne {l1 l2 : List RollupRow} (h : RollupStep l1 l2)
    (hne : l1 ≠ []) : l2 ≠ [] := by
  cases h with
  | perm hp =>
    intro h2
    subst h2
    exact hne hp.eq_nil
  | merge a b l =>
    exact List.cons_ne_nil _ _

/-- Along any sequence of compaction steps, the exact re-fold, the key
discipline, and nonemptiness are all invariant. -/
theorem rollupReach_inv (pid tid : String) {l1 l2 : List RollupRow}
    (h : RollupReach l1 l2)
    (hk : ∀ r ∈ l1, r.project_id = pid ∧ r.trace_id = tid)
    (hne : l1 ≠ []) :
    foldRollups pid tid l1 = foldRollups pid tid l2 ∧
    (∀ r ∈ l2, r.project_id = pid ∧ r.trace_id = tid) ∧ l2 ≠ [] := by
  induction h with
  | refl => exact ⟨rfl, hk, hne⟩
  | tail hst hstep ih =>
    obtain ⟨hf, hk2, hn2⟩ := ih
    exact ⟨hf.trans (rollupStep_fold pid tid hstep), rollupStep_keyed hstep hk2,
           rollupStep_ne hstep hn2⟩

/-- Folding the merge combiner from the left over a keyed group computes
the exact re-fold. -/
theorem foldl_mergeRollup (pid tid : String) :
    ∀ (rs : List RollupRow) (r : RollupRow),
      r.project_id = pid → r.trace_id = tid →
      rs.foldl mergeRollup r = foldRollups pid tid (r :: rs) := by
  intro rs
  induction rs with
  | nil =>
    intro r h1 h2
    obtain ⟨p, t, a, b, c2, d, e2, m⟩ := r
    simp_all [foldRollups]
  | cons b rs ih =>
    intro r h1 h2
    rw [List.foldl_cons, ih (mergeRollup r b) h1 h2]
    simp [foldRollups, mergeRollup, RollupRow.mk.injEq, add_assoc, max_assoc]

/-- The read-side `GROUP BY` query over a keyed nonempty group computes
the exact re-fold. -/
theorem readRollup_eq_foldRollups (pid tid : String) (l : List RollupRow)
    (hk : ∀ r ∈ l, r.project_id = pid ∧ r.trace_id = tid) (hne : l ≠ []) :
    readRollup l = some (foldRollups pid tid l) := by
  cases l with
  | nil => exact absurd rfl hne
  | cons r rs =>
    have hr := hk r (List.mem_cons_self r rs)
    show some (rs.foldl mergeRollup r) = _
    rw [foldl_mergeRollup pid tid rs r hr.1 hr.2]

/-- Claim C5: for a trace with spans `spans`, whatever partially merged
state the rollup table is in (any permutation of parts, any schedule of
pairwise background merges), the explicit read-side re-fold returns
exactly the arithmetic sums of the token and cost fields over all spans,
a `span_count` equal to the number of spans, and the maximal span end
time. -/
theorem c5_rollup_refold_correct (pid tid : String) (spans : List SpanRow)
    (stored : List RollupRow)
    (hkey : ∀ s ∈ spans, s.project_id = pid ∧ s.trace_id = tid)
    (hne : spans ≠ [])
    (hreach : RollupReach (spans.map spanToRollup) stored) :
    readRollup stored = some
      { project_id := pid, trace_id := tid,
        input_tokens := (spans.map SpanRow.input_tokens).sum,
        output_tokens := (spans.map SpanRow.output_tokens).sum,
        input_cost_usd := (spans.map SpanRow.input_cost_usd).sum,
        output_cost_usd := (spans.map SpanRow.output_cost_usd).sum,
        span_count := spans.length,
        max_end_time := (spans.map SpanRow.end_time).foldr max 0 } := by
  have hk0 : ∀ r ∈ spans.map spanToRollup,
      r.project_id = pid ∧ r.trace_id = tid := by
    intro r hr
    obtain ⟨s, hs, rfl⟩ := List.mem_map.mp hr
    exact ⟨(hkey s hs).1, (hkey s hs).2⟩
  have hn0 : spans.map spanToRollup ≠ [] := by
    intro hmap
    exact hne (List.map_eq_nil_iff.mp hmap)
  obtain ⟨hf, hk2, hn2⟩ := rollupReach_inv pid tid hreach hk0 hn0
  rw [readRollup_eq_foldRollups pid tid stored hk2 hn2, ← hf]
  congr 1
  simp [foldRollups, List.map_map, spanToRollup, Function.comp_def, sum_map_one]

/-- Witness for C5: two concrete spans whose partial updates the
background process has already merged into a single row; the re-fold
reports tokens 27/17, cost 76/170 micro-dollars, span count 2 and end
time 5000. -/
theorem c5_rollup_witness :
    readRollup [mergeRollup (spanToRollup spanRowX) (spanToRollup spanRowY)] =
      some { project_id := "p1", trace_id := traceIdA, input_tokens := 27,
             output_tokens := 17, input_cost_usd := 76, output_cost_usd := 170,
             span_count := 2, max_end_time := 5000 } := by
  have h := c5_rollup_refold_correct "p1" traceIdA [spanRowX, spanRowY]
      [mergeRollup (spanToRollup spanRowX) (spanToRollup spanRowY)]
      (by decide) (by decide)
      (Relation.ReflTransGen.single (RollupStep.merge _ _ []))
  exact h

end Breadcrumb
